import Mathlib

/-!
Verification of the real-time audio analysis and adaptive-quality core of the
`aacs-player` repository.  The definitions below are shallow embeddings of the
corresponding functions in `src/music-player.tsx`, `src/ascii-spectrum-analyzer.tsx`
and the audio-context provider: 8-bit sample buffers become `List ℕ`, JS floating
point numbers become `ℝ` (or `ℚ` where every operation is rational), and the JS
value `NaN` produced by a `0 / 0` is modelled by `Option` (`none` = NaN).
-/

namespace AacsPlayer

/-! ### Signal processors (`music-player.tsx`, `audioProcessors`, lines 314-344) -/

/-- Number of iterations of the JS loop `for (let i = 0; i < length; i += stride)`
for a positive stride: the indices visited are `0, stride, 2*stride, ...` below
`length`, i.e. `⌈length / stride⌉` of them. -/
def strideCount (length stride : ℕ) : ℕ := (length + stride - 1) / stride

/-- Embedding of `calculateRMS(samples, sampleRate = 4)`.  The JS code has no
guard for the empty buffer: `sum / (length / sampleRate)` is `0 / 0 = NaN`
there, and the `NaN` propagates through `Math.sqrt`, `* 150`, `Math.max` and
`Math.min` to the caller.  A `NaN` result is modelled as `none`; for every
non-empty buffer the denominator `length / sampleRate` is a positive float and
the computation is ordinary real arithmetic. -/
noncomputable def calculateRMS (samples : List ℕ) (sampleRate : ℕ) : Option ℝ :=
  if samples.length = 0 then none
  else
    let sum : ℝ := ∑ k ∈ Finset.range (strideCount samples.length sampleRate),
      (let normalized := ((samples.getD (k * sampleRate) 0 : ℝ) - 128) / 128
       normalized * normalized)
    let rms := Real.sqrt (sum / ((samples.length : ℝ) / (sampleRate : ℝ)))
    some (min 100 (max 0 (rms * 150)))

/-- The running-maximum loop of `calculatePeak`: fold of `max` over
`Math.abs((samples[i] - 128) / 128)` at the subsampled indices, starting from 0
(`if (normalized > peak) peak = normalized`). -/
def peakFold (samples : List ℕ) (sampleRate : ℕ) : ℚ :=
  ((List.range (strideCount samples.length sampleRate)).map
    (fun k => |((samples.getD (k * sampleRate) 0 : ℚ) - 128) / 128|)).foldl max 0

/-- Embedding of `calculatePeak(samples, sampleRate = 4)`:
`Math.min(100, peak * 100)`.  All operations are rational, so the result lives
in `ℚ`. -/
def calculatePeak (samples : List ℕ) (sampleRate : ℕ) : ℚ :=
  min 100 (peakFold samples sampleRate * 100)

/-- Embedding of `calculateLUFS(leftRMS, rightRMS)`:
`Math.max(-60, Math.min(0, -50 + avgRMS * 0.3))`. -/
noncomputable def calculateLUFS (leftRMS rightRMS : ℝ) : ℝ :=
  max (-60) (min 0 (-50 + ((leftRMS + rightRMS) / 2) * 0.3))

/-! ### Meter ballistics (`music-player.tsx`, `setMeterData` updater, lines 609-628) -/

/-- The meter state held in the `meterData` React state. -/
structure MeterState where
  vuLeft : ℝ
  vuRight : ℝ
  ppmLeft : ℝ
  ppmRight : ℝ
  vuPeakLeft : ℝ
  vuPeakRight : ℝ
  ppmPeakLeft : ℝ
  ppmPeakRight : ℝ
  loudness : ℝ
  correlation : ℝ
  phasePoints : List (ℝ × ℝ)

/-- Initial meter state from the `useState` initializer (all meters 0,
loudness -23, correlation 0, no phase points). -/
def meterInit : MeterState :=
  { vuLeft := 0, vuRight := 0, ppmLeft := 0, ppmRight := 0
    vuPeakLeft := 0, vuPeakRight := 0, ppmPeakLeft := 0, ppmPeakRight := 0
    loudness := -23, correlation := 0, phasePoints := [] }

/-- One meter-update tick: the functional updater passed to `setMeterData`
(lines 609-628), parameterized by the instantaneous values computed just
before it (`leftRMS`, `rightRMS`, `leftPeak`, `rightPeak`, the subsampled
`correlation`, and the freshly built phase-scope points). -/
noncomputable def meterTick (prev : MeterState)
    (leftRMS rightRMS leftPeak rightPeak corr : ℝ)
    (phase : List (ℝ × ℝ)) : MeterState :=
  { vuLeft := if leftRMS > prev.vuLeft then prev.vuLeft * 0.7 + leftRMS * 0.3
      else prev.vuLeft * 0.9
    vuRight := if rightRMS > prev.vuRight then prev.vuRight * 0.7 + rightRMS * 0.3
      else prev.vuRight * 0.9
    ppmLeft := if leftPeak > prev.ppmLeft then prev.ppmLeft * 0.8 + leftPeak * 0.2
      else prev.ppmLeft * 0.95
    ppmRight := if rightPeak > prev.ppmRight then prev.ppmRight * 0.8 + rightPeak * 0.2
      else prev.ppmRight * 0.95
    vuPeakLeft := max leftRMS (prev.vuPeakLeft * 0.98)
    vuPeakRight := max rightRMS (prev.vuPeakRight * 0.98)
    ppmPeakLeft := max leftPeak (prev.ppmPeakLeft * 0.99)
    ppmPeakRight := max rightPeak (prev.ppmPeakRight * 0.99)
    loudness := prev.loudness * 0.95 + calculateLUFS leftRMS rightRMS * 0.05
    correlation := prev.correlation * 0.9 + corr * 0.1
    phasePoints := phase }

/-! ### Decay-on-stop loop (`music-player.tsx`, `decayInterval`, lines 646-667) -/

/-- The halting test of the decay interval: `allLow` is
`vuLeft < 1 && vuRight < 1 && ppmLeft < 1 && ppmRight < 1`.  Note that the
peak-holds and the correlation are not consulted. -/
def decayHalts (prev : MeterState) : Prop :=
  prev.vuLeft < 1 ∧ prev.vuRight < 1 ∧ prev.ppmLeft < 1 ∧ prev.ppmRight < 1

noncomputable instance (prev : MeterState) : Decidable (decayHalts prev) := by
  unfold decayHalts; infer_instance

/-- One firing of the decay interval: when `allLow` holds the interval clears
itself and returns `prev` unchanged; otherwise every level, hold and the
correlation is multiplied by its decay factor (loudness and phase points are
kept as they are, via the `...prev` spread). -/
noncomputable def decayStep (prev : MeterState) : MeterState :=
  if decayHalts prev then prev
  else
    { prev with
      vuLeft := prev.vuLeft * 0.9
      vuRight := prev.vuRight * 0.9
      ppmLeft := prev.ppmLeft * 0.95
      ppmRight := prev.ppmRight * 0.95
      vuPeakLeft := prev.vuPeakLeft * 0.95
      vuPeakRight := prev.vuPeakRight * 0.95
      ppmPeakLeft := prev.ppmPeakLeft * 0.98
      ppmPeakRight := prev.ppmPeakRight * 0.98
      correlation := prev.correlation * 0.98 }

/-! ### Quality tiers (`music-player.tsx` and the audio-context provider) -/

/-- The four quality tiers. -/
inductive Quality where
  | ultra
  | high
  | medium
  | low
deriving DecidableEq, Repr

/-- FFT sizes from `updateQualitySettings` in the audio-context provider:
`{ ultra: 512, high: 256, medium: 128, low: 64 }`. -/
def fftSizes : Quality → ℕ
  | .ultra => 512
  | .high => 256
  | .medium => 128
  | .low => 64

/-- Buffer sizes from `updateQualitySettings`:
`{ ultra: 256, high: 128, medium: 64, low: 32 }`. -/
def bufferSizes : Quality → ℕ
  | .ultra => 256
  | .high => 128
  | .medium => 64
  | .low => 32

/-- Waveform bar counts from `getWaveformBars` in `music-player.tsx`. -/
def getWaveformBars : Quality → ℕ
  | .ultra => 48
  | .high => 32
  | .medium => 24
  | .low => 12

/-- The buffers produced by a quality-tier change: `updateQualitySettings`
allocates fresh zero-filled `Uint8Array(bufferSize)` time- and
frequency-domain buffers and sets the analyser FFT size, and the effect in
`music-player.tsx` (lines 692-698) refills the waveform-bar buffer with the
baseline value 15 (`new Array(barCount).fill(15)`). -/
structure QualityChangeResult where
  fftSize : ℕ
  audioData : List ℕ
  frequencyData : List ℕ
  waveformBars : List ℚ
deriving DecidableEq

/-- Combined effect of a change of the active quality tier. -/
def applyQualityChange (q : Quality) : QualityChangeResult :=
  { fftSize := fftSizes q
    audioData := List.replicate (bufferSizes q) 0
    frequencyData := List.replicate (bufferSizes q) 0
    waveformBars := List.replicate (getWaveformBars q) 15 }

/-! ### Waveform bars tick (`music-player.tsx`, lines 565-578) -/

/-- Value of one waveform bar: `Math.min(100, Math.max(5, (frequency / 255) * 80))`. -/
def waveformBar (frequency : ℕ) : ℚ :=
  min 100 (max 5 ((frequency : ℚ) / 255 * 80))

/-- The waveform-bar update of a tick: bar `i` reads the byte at index
`i * step` with `step = Math.floor(frequencyData.length / barCount)`;
`frequencyData[freqIndex] || 0` reads 0 when the index is out of range. -/
def computeWaveformBars (q : Quality) (freqData : List ℕ) : List ℚ :=
  let barCount := getWaveformBars q
  let step := freqData.length / barCount
  (List.range barCount).map (fun i => waveformBar (freqData.getD (i * step) 0))

/-! ### Performance monitor (`music-player.tsx`, lines 148-312)

All quantities involved are rational, so the monitor is embedded over `ℚ`
(times in milliseconds over `ℤ`), keeping every definition executable. -/

/-- Warning kinds (`PerformanceWarning.type`). -/
inductive WarningType where
  | fps_low
  | fps_critical
  | memory_high
  | cpu_high
deriving DecidableEq, Repr

/-- Warning severities. -/
inductive Severity where
  | warning
  | critical
deriving DecidableEq, Repr

/-- A performance warning, stripped of its presentation strings (`id`,
`message`, `suggestion`); the fields relevant to the monitor logic are kept. -/
structure Warning where
  type : WarningType
  severity : Severity
  suggestedQuality : Option Quality
  timestamp : ℤ
deriving DecidableEq, Repr

/-- The mutable monitor state held in `performanceRef.current` (the fields the
warning logic reads; `frameCount` and `skipFrames` only drive frame skipping). -/
structure Perf where
  fps : ℚ
  avgFps : ℚ
  fpsHistory : List ℚ
  lowFpsCount : ℕ
  criticalFpsCount : ℕ
  lastWarningTime : ℤ
  memoryUsage : ℚ
  cpuUsage : ℚ
deriving DecidableEq, Repr

/-- Initial monitor state from the `useRef` initializer. -/
def perfInit : Perf :=
  { fps := 0, avgFps := 0, fpsHistory := [], lowFpsCount := 0
    criticalFpsCount := 0, lastWarningTime := 0, memoryUsage := 0, cpuUsage := 0 }

/-- Memory-estimate tier multiplier `{ ultra: 4, high: 2.5, medium: 1.5, low: 1 }`. -/
def qualityMultiplier : Quality → ℚ
  | .ultra => 4
  | .high => 2.5
  | .medium => 1.5
  | .low => 1

/-- CPU-estimate target frame rate `{ ultra: 60, high: 45, medium: 30, low: 15 }`. -/
def targetFps : Quality → ℚ
  | .ultra => 60
  | .high => 45
  | .medium => 30
  | .low => 15

/-- The CPU-usage heuristic of `updatePerformanceMetrics` (lines 172-180):
`Math.max(10, Math.min(95, (1 - fpsRatio) * 100 + (isPlaying ? 20 : 5)))`
with `fpsRatio = Math.min(1, avgFps / targetFps)`. -/
def cpuEstimate (q : Quality) (playing : Bool) (avgFps : ℚ) : ℚ :=
  max 10 (min 95 ((1 - min 1 (avgFps / targetFps q)) * 100 + (if playing then 20 else 5)))

/-- Embedding of `updatePerformanceMetrics` (lines 148-194): push the current
fps reading into the 10-sample rolling history, recompute the average, derive
the memory and CPU estimates, and update the two hysteretic counters against
the thresholds `fps.warning = 45` and `fps.critical = 25`.  The counters are
naturals, so `Math.max(0, count - 1)` is truncated subtraction. -/
def updatePerformanceMetrics (q : Quality) (playing : Bool) (p : Perf) : Perf :=
  let hist0 := p.fpsHistory ++ [p.fps]
  let hist := if hist0.length > 10 then hist0.tail else hist0
  let avg := hist.sum / (hist.length : ℚ)
  let memory := 20 * qualityMultiplier q * (if playing then 1.5 else 1)
  let cpu := cpuEstimate q playing avg
  let low := if p.fps < 45 then p.lowFpsCount + 1 else p.lowFpsCount - 1
  let crit := if p.fps < 25 then p.criticalFpsCount + 1 else p.criticalFpsCount - 1
  { p with fpsHistory := hist, avgFps := avg, memoryUsage := memory,
           cpuUsage := cpu, lowFpsCount := low, criticalFpsCount := crit }

/-- Tier suggested by a critical-FPS warning:
`ultra → high, high → medium, medium → low, low → low`. -/
def suggestedCritical : Quality → Quality
  | .ultra => .high
  | .high => .medium
  | .medium => .low
  | .low => .low

/-- Tier suggested by a sustained-low-FPS warning:
`ultra → high, high → medium, otherwise low`. -/
def suggestedLow : Quality → Quality
  | .ultra => .high
  | .high => .medium
  | .medium => .low
  | .low => .low

/-- Tier suggested by the memory/CPU warning branches:
`qualityLevel === 'ultra' ? 'high' : 'medium'`. -/
def suggestedMemWarn : Quality → Quality
  | .ultra => .high
  | _ => .medium

/-- Rank of a tier, for comparing suggestions (`low` lowest). -/
def tierRank : Quality → ℕ
  | .ultra => 3
  | .high => 2
  | .medium => 1
  | .low => 0

/-- The FPS branch of `checkPerformanceWarnings` (lines 214-242): a critical
warning when `criticalFpsCount >= 3` (taking priority), else a low-fps warning
when `lowFpsCount >= 5 && avgFps < PERFORMANCE_THRESHOLDS.fps.warning`. -/
def fpsWarnings (q : Quality) (now : ℤ) (p : Perf) : List Warning :=
  if p.criticalFpsCount ≥ 3 then
    [{ type := .fps_critical, severity := .critical,
       suggestedQuality := some (suggestedCritical q), timestamp := now }]
  else if p.lowFpsCount ≥ 5 ∧ p.avgFps < 45 then
    [{ type := .fps_low, severity := .warning,
       suggestedQuality := some (suggestedLow q), timestamp := now }]
  else []

/-- The memory branch of `checkPerformanceWarnings` (lines 244-265),
thresholds `memory: { warning: 80, critical: 120 }`. -/
def memWarnings (q : Quality) (now : ℤ) (p : Perf) : List Warning :=
  if p.memoryUsage > 120 then
    [{ type := .memory_high, severity := .critical,
       suggestedQuality := some .low, timestamp := now }]
  else if p.memoryUsage > 80 then
    [{ type := .memory_high, severity := .warning,
       suggestedQuality := some (suggestedMemWarn q), timestamp := now }]
  else []

/-- The CPU branch of `checkPerformanceWarnings` (lines 267-288),
thresholds `cpu: { warning: 70, critical: 85 }`. -/
def cpuWarnings (q : Quality) (now : ℤ) (p : Perf) : List Warning :=
  if p.cpuUsage > 85 then
    [{ type := .cpu_high, severity := .critical,
       suggestedQuality := some .low, timestamp := now }]
  else if p.cpuUsage > 70 then
    [{ type := .cpu_high, severity := .warning,
       suggestedQuality := some (suggestedMemWarn q), timestamp := now }]
  else []

/-- Embedding of `checkPerformanceWarnings` (lines 205-312): the 5-second
global cooldown short-circuit, then the FPS branch (critical takes priority
over sustained-low), the memory branch and the CPU branch.  Returns the
emitted batch and the updated state (`lastWarningTime := now` exactly when the
batch is non-empty). -/
def checkPerformanceWarnings (q : Quality) (now : ℤ) (p : Perf) : List Warning × Perf :=
  if now - p.lastWarningTime < 5000 then ([], p)
  else
    let ws := fpsWarnings q now p ++ memWarnings q now p ++ cpuWarnings q now p
    if ws.length > 0 then (ws, { p with lastWarningTime := now }) else ([], p)

/-- One periodic performance check inside `updateVisuals` (lines 519-530):
record the measured fps, run `updatePerformanceMetrics`, then (while playback
is active) run `checkPerformanceWarnings`. -/
def perfCheck (q : Quality) (playing : Bool) (measuredFps : ℚ) (now : ℤ)
    (p : Perf) : List Warning × Perf :=
  let p1 := updatePerformanceMetrics q playing { p with fps := measuredFps }
  if playing then checkPerformanceWarnings q now p1 else ([], p1)

/-- A trace of performance checks: for each `(time, measured fps)` pair run
`perfCheck` and record the emitted batch. -/
def runChecks (q : Quality) (playing : Bool) :
    List (ℤ × ℚ) → Perf → List (ℤ × List Warning) × Perf
  | [], p => ([], p)
  | (t, f) :: rest, p =>
    let step := perfCheck q playing f t p
    let tail := runChecks q playing rest step.2
    ((t, step.1) :: tail.1, tail.2)

/-! ### Oscilloscope zoom/pan state machine (`music-player.tsx`, lines 132-511) -/

/-- The quantized horizontal zoom levels (`zoomIn`/`zoomOut`):
`[0.0005, 0.001, 0.01, 0.1, 0.25, 0.5, 0.75, 1, 2, 4, 8, 16]`. -/
def zoomLevels : List ℚ := [0.0005, 0.001, 0.01, 0.1, 0.25, 0.5, 0.75, 1, 2, 4, 8, 16]

/-- The quantized amplitude-zoom levels (`[1, 2, 4, 8]`). -/
def ampLevels : List ℚ := [1, 2, 4, 8]

/-- The oscilloscope interaction state: zoom, pan (percent), amplitude zoom,
and the mouse-drag bookkeeping. -/
structure OscState where
  zoomLevel : ℚ
  panOffset : ℚ
  amplitudeZoom : ℚ
  isDragging : Bool
  lastMouseX : ℚ
deriving DecidableEq, Repr

/-- Initial state from the `useState` initializers: zoom 1, pan 0,
amplitude zoom 8, not dragging. -/
def oscInit : OscState :=
  { zoomLevel := 1, panOffset := 0, amplitudeZoom := 8, isDragging := false, lastMouseX := 0 }

/-- The zoom value returned by the `setZoomLevel` updater of `zoomIn`:
`levels.indexOf(prev)` then step up unless already at the top.  JS `indexOf`
returns -1 when the value is not in the list, in which case
`currentIndex < levels.length - 1` holds and `levels[-1 + 1] = levels[0]` is
returned. -/
def nextZoom (z : ℚ) : ℚ :=
  match zoomLevels.findIdx? (fun w => w == z) with
  | none => zoomLevels.getD 0 0
  | some i => if i < zoomLevels.length - 1 then zoomLevels.getD (i + 1) 0 else z

/-- The `setZoomLevel` updater of `zoomOut`, returning the new zoom value and
whether a step down actually happened (`currentIndex > 0`); only in that case
does `zoomOut` also touch the pan offset.  JS `indexOf` returning -1 fails the
`currentIndex > 0` test, so the value is returned unchanged. -/
def prevZoomInfo (z : ℚ) : ℚ × Bool :=
  match zoomLevels.findIdx? (fun w => w == z) with
  | none => (z, false)
  | some i => if 0 < i then (zoomLevels.getD (i - 1) 0, true) else (z, false)

/-- Embedding of `zoomIn`: only the zoom level changes. -/
def zoomInStep (s : OscState) : OscState :=
  { s with zoomLevel := nextZoom s.zoomLevel }

/-- Embedding of `zoomOut`: step down unless at the bottom, and, when a step
down happened and the new level is ≤ 1, reset the pan offset to 0
(`if (nextLevel <= 1) setPanOffset(0)`). -/
def zoomOutStep (s : OscState) : OscState :=
  let r := prevZoomInfo s.zoomLevel
  { s with zoomLevel := r.1,
           panOffset := if r.2 = true ∧ r.1 ≤ 1 then 0 else s.panOffset }

/-- The `setAmplitudeZoom` updater of `amplitudeZoomIn` (position in
`ampLevels`, step up). -/
def nextAmp (z : ℚ) : ℚ :=
  match ampLevels.findIdx? (fun w => w == z) with
  | none => ampLevels.getD 0 0
  | some i => if i < ampLevels.length - 1 then ampLevels.getD (i + 1) 0 else z

/-- The `setAmplitudeZoom` updater of `amplitudeZoomOut`. -/
def prevAmp (z : ℚ) : ℚ :=
  match ampLevels.findIdx? (fun w => w == z) with
  | none => z
  | some i => if 0 < i then ampLevels.getD (i - 1) 0 else z

/-- Embedding of `amplitudeZoomIn`: only the amplitude zoom changes. -/
def ampZoomInStep (s : OscState) : OscState :=
  { s with amplitudeZoom := nextAmp s.amplitudeZoom }

/-- Embedding of `amplitudeZoomOut`. -/
def ampZoomOutStep (s : OscState) : OscState :=
  { s with amplitudeZoom := prevAmp s.amplitudeZoom }

/-- Embedding of `resetZoom`: zoom 1, amplitude zoom 1, pan 0. -/
def resetZoomStep (s : OscState) : OscState :=
  { s with zoomLevel := 1, amplitudeZoom := 1, panOffset := 0 }

/-- Embedding of `handleMouseDown`: start a drag only when `zoomLevel > 1`. -/
def mouseDownStep (x : ℚ) (s : OscState) : OscState :=
  if 1 < s.zoomLevel then { s with isDragging := true, lastMouseX := x } else s

/-- Embedding of `handleMouseMove` (lines 475-488): while dragging at
`zoomLevel > 1`, convert the horizontal delta into a pan delta
(`deltaX * 0.5 * zoomLevel / 2`) and clamp the new offset to `[0, 100]`. -/
def mouseMoveStep (x : ℚ) (s : OscState) : OscState :=
  if s.isDragging = true ∧ 1 < s.zoomLevel then
    let deltaX := x - s.lastMouseX
    let panDelta := deltaX * 0.5 * s.zoomLevel / 2
    { s with panOffset := max 0 (min 100 (s.panOffset - panDelta)), lastMouseX := x }
  else s

/-- Embedding of `handleMouseUp`. -/
def mouseUpStep (s : OscState) : OscState := { s with isDragging := false }

/-- Embedding of the document-level `handleGlobalMouseMove` (lines 713-740):
the listener is attached exactly while `isDragging` is true, and — unlike the
component-level `handleMouseMove` — it pans with **no** `zoomLevel > 1`
guard: `panDelta = deltaX * 0.5 * zoomLevel / 2`, clamped to `[0, 100]`. -/
def globalMouseMoveStep (x : ℚ) (s : OscState) : OscState :=
  if s.isDragging = true then
    let deltaX := x - s.lastMouseX
    let panDelta := deltaX * 0.5 * s.zoomLevel / 2
    { s with panOffset := max 0 (min 100 (s.panOffset - panDelta)), lastMouseX := x }
  else s

/-- Embedding of the document-level `handleGlobalMouseUp` (attached exactly
while `isDragging` is true). -/
def globalMouseUpStep (s : OscState) : OscState :=
  if s.isDragging = true then { s with isDragging := false } else s

/-- The oscilloscope interaction events: the component-level handlers, the
document-level drag handlers of lines 713-740, and the wheel handler (which
dispatches to the same zoom steps). -/
inductive OscEvent where
  | zoomIn
  | zoomOut
  | ampIn
  | ampOut
  | reset
  | mouseDown (x : ℚ)
  | mouseMove (x : ℚ)
  | mouseUp
  | globalMouseMove (x : ℚ)
  | globalMouseUp

/-- Transition function of the oscilloscope state machine. -/
def oscStep : OscEvent → OscState → OscState
  | .zoomIn, s => zoomInStep s
  | .zoomOut, s => zoomOutStep s
  | .ampIn, s => ampZoomInStep s
  | .ampOut, s => ampZoomOutStep s
  | .reset, s => resetZoomStep s
  | .mouseDown x, s => mouseDownStep x s
  | .mouseMove x, s => mouseMoveStep x s
  | .mouseUp, s => mouseUpStep s
  | .globalMouseMove x, s => globalMouseMoveStep x s
  | .globalMouseUp, s => globalMouseUpStep s

/-- States reachable from the initial oscilloscope state by user events. -/
inductive OscReachable : OscState → Prop where
  | init : OscReachable oscInit
  | step (e : OscEvent) {s : OscState} : OscReachable s → OscReachable (oscStep e s)

/-! ### Spectrum mapper (`ascii-spectrum-analyzer.tsx`, `logIndexMap`, lines 31-46,
and the column aggregation loop, lines 62-82)

Constants of the analyzer: `VIZ_COLS = 140`, `MIN_FREQ = 20`,
`MAX_FREQ = 22000`, `SAMPLE_RATE = 44100`. -/

/-- Number of display columns. -/
def VIZ_COLS : ℕ := 140

/-- The value `Math.log10(MIN_FREQ)`. -/
noncomputable def logMin : ℝ := Real.logb 10 20

/-- The value `Math.log10(MAX_FREQ)`. -/
noncomputable def logMax : ℝ := Real.logb 10 22000

/-- The value `logMax - logMin`. -/
noncomputable def logRange : ℝ := logMax - logMin

/-- The log-uniformly sampled frequency of column `i`:
`Math.pow(10, logMin + (logRange * i) / (VIZ_COLS - 1))`. -/
noncomputable def colFreq (i : ℕ) : ℝ := (10 : ℝ) ^ (logMin + logRange * i / 139)

/-- The value `Math.max(1, frequencyData?.length || 0)`. -/
def availableBins (len : ℕ) : ℕ := max 1 len

/-- Embedding of the `logIndexMap` entries:
`Math.min(maxIndex, Math.max(0, Math.round((freq / (SAMPLE_RATE / 2)) * availableBins)))`
with `maxIndex = availableBins - 1`.  JS `Math.round(x)` is `⌊x + 1/2⌋`, which
is Mathlib's `round`. -/
noncomputable def logIndexMap (len i : ℕ) : ℕ :=
  let bins := availableBins len
  let index : ℤ := round (colFreq i / ((44100 : ℝ) / 2) * (bins : ℝ))
  (min ((bins : ℤ) - 1) (max 0 index)).toNat

/-- End (exclusive) of the bin window of column `i` in the aggregation loop:
`i < VIZ_COLS - 1 ? logIndexMap[i + 1] : Math.min(startIndex + 1, frequencyData.length)`. -/
noncomputable def colEnd (len i : ℕ) : ℕ :=
  if i < VIZ_COLS - 1 then logIndexMap len (i + 1) else min (logIndexMap len i + 1) len

/-- The bin window of column `i`: the indices `j` with
`startIndex ≤ j < endIndex` visited by the inner summation loop. -/
noncomputable def colWindow (len i : ℕ) : Finset ℕ :=
  Finset.Ico (logIndexMap len i) (colEnd len i)

/-- All bins touched by any of the `VIZ_COLS` column windows. -/
noncomputable def allWindows (len : ℕ) : Finset ℕ :=
  (Finset.range VIZ_COLS).biUnion (colWindow len)

/-! ## Theorems -/

/-! ### C1 — signal processor ranges and the zero-length buffer -/

/-- Helper: a left fold of `max` never drops below its seed. -/
lemma le_foldl_max (l : List ℚ) (a : ℚ) : a ≤ l.foldl max a := by
  induction l generalizing a with
  | nil => exact le_refl a
  | cons x xs ih => exact le_trans (le_max_left a x) (ih (max a x))

/-- Helper: for every non-empty buffer `calculateRMS` does produce a value,
and that value is clamped into `[0, 100]`. -/
lemma calculateRMS_nonempty_bounds (samples : List ℕ) (stride : ℕ)
    (h : samples.length ≠ 0) :
    ∃ r, calculateRMS samples stride = some r ∧ 0 ≤ r ∧ r ≤ 100 := by
  unfold calculateRMS
  rw [if_neg h]
  exact ⟨_, rfl, le_min (by norm_num) (le_max_left _ _), min_le_left _ _⟩

/-- Helper: `calculatePeak` is always within `[0, 100]`. -/
lemma calculatePeak_bounds (samples : List ℕ) (stride : ℕ) :
    0 ≤ calculatePeak samples stride ∧ calculatePeak samples stride ≤ 100 := by
  constructor
  · exact le_min (by norm_num)
      (mul_nonneg (le_foldl_max _ 0) (by norm_num))
  · exact min_le_left _ _

/-- C1: the claim asserts that a buffer of length 0 short-circuits both
processors to 0.  `calculatePeak` does return 0 on the empty buffer, but
`calculateRMS` has no short-circuit: its division `sum / (length / sampleRate)`
is `0 / 0 = NaN` in JS (modelled as `none`), which then propagates through
`Math.sqrt`, `Math.max` and `Math.min` to the caller. -/
theorem rms_empty_no_short_circuit :
    calculateRMS [] 4 = none ∧ calculatePeak [] 4 = 0 := by
  constructor
  · simp [calculateRMS]
  · norm_num [calculatePeak, peakFold, strideCount]

/-! ### C2 — VU versus PPM attack after a step input -/

/-- C2 counterexample: starting both meters at level 0 and feeding the step
value 100 to both, the PPM level after one tick (`0 * 0.8 + 100 * 0.2 = 20`)
is strictly below the VU level after one tick (`0 * 0.7 + 100 * 0.3 = 30`),
refuting `PPM ≥ VU`. -/
theorem ppm_attack_below_vu_cex :
    (meterTick meterInit 100 100 100 100 0 []).ppmLeft <
      (meterTick meterInit 100 100 100 100 0 []).vuLeft := by
  simp only [meterTick, meterInit]
  split_ifs with h
  · norm_num
  · norm_num at h

/-- C2 (amended): for every step input fed to both meters from level 0, the
VU level after one tick is at least the PPM level — the code gives VU the
faster attack (0.3 blend versus PPM's 0.2). -/
theorem vu_attack_dominates_ppm (v : ℝ) :
    (meterTick meterInit v v v v 0 []).ppmLeft ≤
      (meterTick meterInit v v v v 0 []).vuLeft := by
  simp only [meterTick, meterInit]
  split_ifs with h <;> nlinarith

/-! ### C3 — halting condition of the decay-on-stop loop -/

/-- A state with all four meter levels at zero but a peak-hold at 50 and a
correlation of 0.9. -/
noncomputable def c3state : MeterState :=
  { meterInit with vuPeakLeft := 50, ppmPeakLeft := 50, correlation := 0.9 }

/-- C3 counterexample: the decay loop halts on `c3state` even though its VU
peak-hold is 50 — far above any negligible threshold — because the `allLow`
test only inspects the four VU/PPM levels; halting moreover returns the state
unchanged, so the peak-holds and correlation are never decayed further. -/
theorem decay_halts_despite_high_peak_cex :
    decayHalts c3state ∧ ¬ c3state.vuPeakLeft < 1 ∧ decayStep c3state = c3state := by
  refine ⟨?_, ?_, ?_⟩
  · refine ⟨?_, ?_, ?_, ?_⟩ <;> norm_num [c3state, meterInit]
  · norm_num [c3state, meterInit]
  · unfold decayStep
    rw [if_pos]
    refine ⟨?_, ?_, ?_, ?_⟩ <;> norm_num [c3state, meterInit]

/-- C3 (amended): the decay loop halts exactly when the four VU/PPM levels
are below 1; the peak-holds and correlation are not part of the halting test.
When it halts the state is returned unchanged (so still-high holds stop being
decayed), and while it runs every level, hold and the correlation is
multiplied by its decay factor. -/
theorem decay_loop_halting (s : MeterState) :
    (decayHalts s ↔ s.vuLeft < 1 ∧ s.vuRight < 1 ∧ s.ppmLeft < 1 ∧ s.ppmRight < 1) ∧
    (decayHalts s → decayStep s = s) ∧
    (¬ decayHalts s →
      (decayStep s).vuLeft = s.vuLeft * 0.9 ∧
      (decayStep s).vuRight = s.vuRight * 0.9 ∧
      (decayStep s).ppmLeft = s.ppmLeft * 0.95 ∧
      (decayStep s).ppmRight = s.ppmRight * 0.95 ∧
      (decayStep s).vuPeakLeft = s.vuPeakLeft * 0.95 ∧
      (decayStep s).vuPeakRight = s.vuPeakRight * 0.95 ∧
      (decayStep s).ppmPeakLeft = s.ppmPeakLeft * 0.98 ∧
      (decayStep s).ppmPeakRight = s.ppmPeakRight * 0.98 ∧
      (decayStep s).correlation = s.correlation * 0.98) := by
  refine ⟨Iff.rfl, fun h => ?_, fun h => ?_⟩
  · simp [decayStep, h]
  · simp [decayStep, h]

/-- Witness for the amended C3 at the initial state (all levels 0, halting). -/
theorem decay_loop_halting_witness : decayStep meterInit = meterInit :=
  (decay_loop_halting meterInit).2.1
    ⟨by norm_num [meterInit], by norm_num [meterInit], by norm_num [meterInit],
     by norm_num [meterInit]⟩

/-! ### C4 — buffer reallocation on a quality-tier change -/

/-- C4 counterexample: after a change to the `low` tier, the first waveform
bar is 15, not 0 — the bars are refilled with the baseline 15, not reset to
zero. -/
theorem waveform_reset_value_cex :
    (applyQualityChange Quality.low).waveformBars.getD 0 0 ≠ 0 := by decide

/-- C4 (amended): on every tier change the analyser FFT size becomes the
tier's analysis window size, both sample buffers are reallocated to the
tier's buffer size (half the FFT size) with every element zero, and the
waveform-bar buffer is reallocated to the tier's bar count with every element
set to the baseline value 15 — no buffer is partially preserved. -/
theorem applyQualityChange_spec (q : Quality) :
    (applyQualityChange q).fftSize = fftSizes q ∧
    (applyQualityChange q).audioData.length = bufferSizes q ∧
    (applyQualityChange q).frequencyData.length = bufferSizes q ∧
    ((applyQualityChange q).audioData.all fun x => x == 0) = true ∧
    ((applyQualityChange q).frequencyData.all fun x => x == 0) = true ∧
    (applyQualityChange q).waveformBars.length = getWaveformBars q ∧
    ((applyQualityChange q).waveformBars.all fun x => x == 15) = true ∧
    2 * bufferSizes q = fftSizes q := by
  have hall : ∀ (n : ℕ) (a : ℚ), ((List.replicate n a).all fun x => x == a) = true := by
    intro n a
    rw [List.all_eq_true]
    intro x hx
    rw [(List.mem_replicate.mp hx).2]
    exact beq_self_eq_true a
  have hallN : ∀ (n : ℕ) (a : ℕ), ((List.replicate n a).all fun x => x == a) = true := by
    intro n a
    rw [List.all_eq_true]
    intro x hx
    rw [(List.mem_replicate.mp hx).2]
    exact beq_self_eq_true a
  cases q <;>
    exact ⟨rfl, List.length_replicate .., List.length_replicate ..,
      hallN .., hallN .., List.length_replicate .., hall .., rfl⟩

/-! ### C7 — peak-hold ballistics -/

/-- C7: on every meter tick each peak-hold is `max(instantaneous, hold * decay)`
(decay 0.98 for VU, 0.99 for PPM); hence the new hold never falls below the
instantaneous value, never falls below the decayed previous hold, and — while
the instantaneous value stays at or below the previous hold — never rises
above the previous hold. -/
theorem peak_hold_ballistics (prev : MeterState) (lR rR lP rP c : ℝ)
    (ph : List (ℝ × ℝ))
    (h1 : 0 ≤ prev.vuPeakLeft) (h2 : 0 ≤ prev.vuPeakRight)
    (h3 : 0 ≤ prev.ppmPeakLeft) (h4 : 0 ≤ prev.ppmPeakRight) :
    (lR ≤ (meterTick prev lR rR lP rP c ph).vuPeakLeft ∧
     rR ≤ (meterTick prev lR rR lP rP c ph).vuPeakRight ∧
     lP ≤ (meterTick prev lR rR lP rP c ph).ppmPeakLeft ∧
     rP ≤ (meterTick prev lR rR lP rP c ph).ppmPeakRight) ∧
    (prev.vuPeakLeft * 0.98 ≤ (meterTick prev lR rR lP rP c ph).vuPeakLeft ∧
     prev.vuPeakRight * 0.98 ≤ (meterTick prev lR rR lP rP c ph).vuPeakRight ∧
     prev.ppmPeakLeft * 0.99 ≤ (meterTick prev lR rR lP rP c ph).ppmPeakLeft ∧
     prev.ppmPeakRight * 0.99 ≤ (meterTick prev lR rR lP rP c ph).ppmPeakRight) ∧
    ((lR ≤ prev.vuPeakLeft → (meterTick prev lR rR lP rP c ph).vuPeakLeft ≤ prev.vuPeakLeft) ∧
     (rR ≤ prev.vuPeakRight → (meterTick prev lR rR lP rP c ph).vuPeakRight ≤ prev.vuPeakRight) ∧
     (lP ≤ prev.ppmPeakLeft → (meterTick prev lR rR lP rP c ph).ppmPeakLeft ≤ prev.ppmPeakLeft) ∧
     (rP ≤ prev.ppmPeakRight → (meterTick prev lR rR lP rP c ph).ppmPeakRight ≤ prev.ppmPeakRight)) := by
  simp only [meterTick]
  refine ⟨⟨le_max_left _ _, le_max_left _ _, le_max_left _ _, le_max_left _ _⟩,
    ⟨le_max_right _ _, le_max_right _ _, le_max_right _ _, le_max_right _ _⟩,
    ⟨fun h => max_le h (by nlinarith), fun h => max_le h (by nlinarith),
     fun h => max_le h (by nlinarith), fun h => max_le h (by nlinarith)⟩⟩

/-- Witness for C7 at the initial state with all instantaneous values 0. -/
theorem peak_hold_ballistics_witness :
    ((0:ℝ) ≤ (meterTick meterInit 0 0 0 0 0 []).vuPeakLeft ∧
     (0:ℝ) ≤ (meterTick meterInit 0 0 0 0 0 []).vuPeakRight ∧
     (0:ℝ) ≤ (meterTick meterInit 0 0 0 0 0 []).ppmPeakLeft ∧
     (0:ℝ) ≤ (meterTick meterInit 0 0 0 0 0 []).ppmPeakRight) ∧
    (meterInit.vuPeakLeft * 0.98 ≤ (meterTick meterInit 0 0 0 0 0 []).vuPeakLeft ∧
     meterInit.vuPeakRight * 0.98 ≤ (meterTick meterInit 0 0 0 0 0 []).vuPeakRight ∧
     meterInit.ppmPeakLeft * 0.99 ≤ (meterTick meterInit 0 0 0 0 0 []).ppmPeakLeft ∧
     meterInit.ppmPeakRight * 0.99 ≤ (meterTick meterInit 0 0 0 0 0 []).ppmPeakRight) ∧
    (((0:ℝ) ≤ meterInit.vuPeakLeft → (meterTick meterInit 0 0 0 0 0 []).vuPeakLeft ≤ meterInit.vuPeakLeft) ∧
     ((0:ℝ) ≤ meterInit.vuPeakRight → (meterTick meterInit 0 0 0 0 0 []).vuPeakRight ≤ meterInit.vuPeakRight) ∧
     ((0:ℝ) ≤ meterInit.ppmPeakLeft → (meterTick meterInit 0 0 0 0 0 []).ppmPeakLeft ≤ meterInit.ppmPeakLeft) ∧
     ((0:ℝ) ≤ meterInit.ppmPeakRight → (meterTick meterInit 0 0 0 0 0 []).ppmPeakRight ≤ meterInit.ppmPeakRight)) :=
  peak_hold_ballistics meterInit 0 0 0 0 0 []
    (le_refl 0) (le_refl 0) (le_refl 0) (le_refl 0)

/-! ### C9 — CPU estimate is antitone in the average frame rate -/

/-- C9: holding the tier and the playback flag fixed, the CPU-usage estimate
is non-increasing in the average frame rate: a lower average fps never yields
a lower estimate. -/
theorem cpu_estimate_antitone (q : Quality) (playing : Bool) (a b : ℚ)
    (hab : a ≤ b) : cpuEstimate q playing b ≤ cpuEstimate q playing a := by
  have ht : (0:ℚ) < targetFps q := by cases q <;> norm_num [targetFps]
  have h1 : min 1 (a / targetFps q) ≤ min 1 (b / targetFps q) := by
    refine min_le_min le_rfl ?_
    exact div_le_div_of_nonneg_right hab ht.le
  unfold cpuEstimate
  refine max_le_max le_rfl (min_le_min le_rfl ?_)
  have h2 : (1 - min 1 (b / targetFps q)) ≤ (1 - min 1 (a / targetFps q)) := by linarith
  have hc : (0:ℚ) ≤ (if playing then (20:ℚ) else 5) := by split <;> norm_num
  nlinarith [h2]

/-- Witness for C9: degrading the average fps from 30 to 20 at tier medium
while playing cannot lower the estimate. -/
theorem cpu_estimate_antitone_witness :
    cpuEstimate Quality.medium true 30 ≤ cpuEstimate Quality.medium true 20 :=
  cpu_estimate_antitone Quality.medium true 20 30 (by norm_num)

/-! ### C10 — waveform bars stay in [5, 80] -/

/-- Helper: reading a byte buffer with default 0 stays within the byte bound. -/
lemma getD_le_bound {l : List ℕ} (h : ∀ x ∈ l, x ≤ 255) (n : ℕ) :
    l.getD n 0 ≤ 255 := by
  rcases Nat.lt_or_ge n l.length with hn | hn
  · rw [List.getD_eq_getElem l 0 hn]
    exact h _ (List.getElem_mem hn)
  · rw [List.getD_eq_default l 0 hn]
    exact Nat.zero_le 255

/-- C10: every waveform bar produced from a byte buffer lies in `[5, 80]`:
the floor 5 comes from the inner `Math.max(5, _)`, and since the raw byte is
at most 255 and is scaled by `80 / 255` before the clamp at 100, the value
never exceeds 80. -/
theorem waveform_bars_in_range (q : Quality) (freqData : List ℕ)
    (hbytes : ∀ x ∈ freqData, x ≤ 255) :
    ∀ b ∈ computeWaveformBars q freqData, 5 ≤ b ∧ b ≤ 80 := by
  intro b hb
  simp only [computeWaveformBars, List.mem_map, List.mem_range] at hb
  obtain ⟨i, hi, rfl⟩ := hb
  have hfb : freqData.getD (i * (freqData.length / getWaveformBars q)) 0 ≤ 255 :=
    getD_le_bound hbytes _
  unfold waveformBar
  constructor
  · exact le_min (by norm_num) (le_max_left _ _)
  · have hcast : ((freqData.getD (i * (freqData.length / getWaveformBars q)) 0 : ℕ) : ℚ) ≤ 255 := by
      exact_mod_cast hfb
    have hx : ((freqData.getD (i * (freqData.length / getWaveformBars q)) 0 : ℕ) : ℚ) / 255 * 80 ≤ 80 := by
      rw [div_mul_eq_mul_div, div_le_iff₀ (by norm_num : (0:ℚ) < 255)]
      nlinarith
    exact le_trans (min_le_right _ _) (max_le (by norm_num) hx)

/-- Witness for C10 on the one-byte buffer `[200]` at tier low. -/
theorem waveform_bars_in_range_witness :
    5 ≤ waveformBar 200 ∧ waveformBar 200 ≤ 80 :=
  waveform_bars_in_range Quality.low [200] (by decide) (waveformBar 200)
    (by
      unfold computeWaveformBars
      refine List.mem_map.mpr ⟨0, ?_, ?_⟩
      · simp [getWaveformBars]
      · norm_num [getWaveformBars])

/-! ### C5 — warning cadence of the performance monitor -/

/-- Helper: the monitor emits nothing within 5000 ms of its last emitted
warning of any kind. -/
lemma warning_cooldown (q : Quality) (now : ℤ) (p : Perf) :
    ∀ w ∈ (checkPerformanceWarnings q now p).1, 5000 ≤ now - p.lastWarningTime := by
  intro w hw
  by_cases h : now - p.lastWarningTime < 5000
  · rw [checkPerformanceWarnings, if_pos h] at hw
    simp at hw
  · omega

/-- Helper: the emitted batch is either empty or exactly the concatenation of
the FPS, memory and CPU branches. -/
lemma checkPerformanceWarnings_cases (q : Quality) (now : ℤ) (p : Perf) :
    (checkPerformanceWarnings q now p).1 = [] ∨
      (checkPerformanceWarnings q now p).1 =
        fpsWarnings q now p ++ memWarnings q now p ++ cpuWarnings q now p := by
  simp only [checkPerformanceWarnings]
  split_ifs <;> first
    | exact Or.inl rfl
    | exact Or.inr rfl

/-- Helper: a warning in the FPS branch is either critical with a streak of at
least 3, or low with a streak of at least 5 and a sub-45 average. -/
lemma mem_fpsWarnings (q : Quality) (now : ℤ) (p : Perf) (w : Warning)
    (hw : w ∈ fpsWarnings q now p) :
    (w.type = WarningType.fps_critical ∧ 3 ≤ p.criticalFpsCount) ∨
      (w.type = WarningType.fps_low ∧ 5 ≤ p.lowFpsCount ∧ p.avgFps < 45) := by
  unfold fpsWarnings at hw
  split_ifs at hw with h1 h2
  · simp only [List.mem_singleton] at hw
    subst hw
    exact Or.inl ⟨rfl, h1⟩
  · simp only [List.mem_singleton] at hw
    subst hw
    exact Or.inr ⟨rfl, h2⟩
  · simp at hw

/-- Helper: the memory branch only emits `memory_high` warnings. -/
lemma mem_memWarnings (q : Quality) (now : ℤ) (p : Perf) (w : Warning)
    (hw : w ∈ memWarnings q now p) : w.type = WarningType.memory_high := by
  unfold memWarnings at hw
  split_ifs at hw with h1 h2
  · simp only [List.mem_singleton] at hw
    subst hw
    rfl
  · simp only [List.mem_singleton] at hw
    subst hw
    rfl
  · simp at hw

/-- Helper: the CPU branch only emits `cpu_high` warnings. -/
lemma mem_cpuWarnings (q : Quality) (now : ℤ) (p : Perf) (w : Warning)
    (hw : w ∈ cpuWarnings q now p) : w.type = WarningType.cpu_high := by
  unfold cpuWarnings at hw
  split_ifs at hw with h1 h2
  · simp only [List.mem_singleton] at hw
    subst hw
    rfl
  · simp only [List.mem_singleton] at hw
    subst hw
    rfl
  · simp at hw

/-- Helper: every FPS warning in an emitted batch has met its minimum streak. -/
lemma fps_warning_requires_streak (q : Quality) (now : ℤ) (p : Perf) :
    ∀ w ∈ (checkPerformanceWarnings q now p).1,
      (w.type = WarningType.fps_critical → 3 ≤ p.criticalFpsCount) ∧
      (w.type = WarningType.fps_low → 5 ≤ p.lowFpsCount ∧ p.avgFps < 45) := by
  intro w hw
  rcases checkPerformanceWarnings_cases q now p with h | h
  · rw [h] at hw
    simp at hw
  · rw [h] at hw
    rcases List.mem_append.mp hw with hw1 | hcpu
    · rcases List.mem_append.mp hw1 with hfps | hmem
      · rcases mem_fpsWarnings q now p w hfps with ⟨ht, hc⟩ | ⟨ht, hc⟩
        · exact ⟨fun _ => hc, fun habs => absurd (ht ▸ habs) (by simp)⟩
        · exact ⟨fun habs => absurd (ht ▸ habs) (by simp), fun _ => hc⟩
      · have hmt := mem_memWarnings q now p w hmem
        exact ⟨fun habs => absurd (hmt ▸ habs) (by simp),
               fun habs => absurd (hmt ▸ habs) (by simp)⟩
    · have hct := mem_cpuWarnings q now p w hcpu
      exact ⟨fun habs => absurd (hct ▸ habs) (by simp),
             fun habs => absurd (hct ▸ habs) (by simp)⟩

/-- C5 counterexample: running the 20-fps trace at tier `ultra` (playing), the
batch emitted at the 6th check (time 10000, one cooldown window after the
first emission at 5000) contains two critical warnings — the FPS one and a
`cpu_high` one from the CPU-usage heuristic — refuting "exactly one critical
warning per 5-second cooldown window". -/
theorem ultra_double_critical_cex :
    ((runChecks Quality.ultra true
        [(5000, 20), (6000, 20), (7000, 20), (8000, 20), (9000, 20), (10000, 20)]
        perfInit).1.getD 5 (0, [])).2.countP (fun w => w.severity == Severity.critical) = 2 := by
  norm_num [runChecks, perfCheck, updatePerformanceMetrics, checkPerformanceWarnings,
    fpsWarnings, memWarnings, cpuWarnings, cpuEstimate, perfInit, qualityMultiplier,
    targetFps, suggestedCritical, suggestedLow, suggestedMemWarn, min_def, max_def,
    List.countP_cons, List.countP_nil]
  all_goals decide

/-- C5 (amended): a warning batch is emitted only when at least 5000 ms have
elapsed since the monitor's last emitted warning of any kind; an FPS warning
additionally requires its hysteretic streak (criticalFpsCount ≥ 3 for
critical, lowFpsCount ≥ 5 with average below 45 for sustained low); the tier
suggested by a critical FPS warning is strictly lower than the current tier
unless the tier is already low; and a 20-fps trace at tier medium emits
exactly one (critical, suggested-tier-low) warning per 5-second cooldown
window — at higher tiers the memory/CPU heuristics can add further warnings
to the same batch (see the counterexample). -/
theorem perf_warning_discipline :
    (∀ (q : Quality) (now : ℤ) (p : Perf),
       ∀ w ∈ (checkPerformanceWarnings q now p).1, 5000 ≤ now - p.lastWarningTime) ∧
    (∀ (q : Quality) (now : ℤ) (p : Perf), ∀ w ∈ (checkPerformanceWarnings q now p).1,
       (w.type = WarningType.fps_critical → 3 ≤ p.criticalFpsCount) ∧
       (w.type = WarningType.fps_low → 5 ≤ p.lowFpsCount ∧ p.avgFps < 45)) ∧
    (∀ q : Quality, q ≠ Quality.low → tierRank (suggestedCritical q) < tierRank q) ∧
    suggestedCritical Quality.low = Quality.low ∧
    (runChecks Quality.medium true
        [(5000, 20), (6000, 20), (7000, 20), (8000, 20), (9000, 20), (10000, 20), (11000, 20), (12000, 20)]
        perfInit).1 =
      [(5000, []), (6000, []),
       (7000, [{ type := .fps_critical, severity := .critical,
                 suggestedQuality := some .low, timestamp := 7000 }]),
       (8000, []), (9000, []), (10000, []), (11000, []),
       (12000, [{ type := .fps_critical, severity := .critical,
                  suggestedQuality := some .low, timestamp := 12000 }])] := by
  refine ⟨warning_cooldown, fps_warning_requires_streak, ?_, rfl, ?_⟩
  · intro q hq
    cases q
    · decide
    · decide
    · decide
    · exact absurd rfl hq
  · norm_num [runChecks, perfCheck, updatePerformanceMetrics, checkPerformanceWarnings,
      fpsWarnings, memWarnings, cpuWarnings, cpuEstimate, perfInit, qualityMultiplier,
      targetFps, suggestedCritical, suggestedLow, suggestedMemWarn, min_def, max_def]

/-- Witness for C5: a state whose critical streak has just reached 3 emits at
time 5000, which is at least 5000 ms after the initial `lastWarningTime` 0. -/
theorem perf_warning_discipline_witness :
    (5000:ℤ) ≤ 5000 - ({ perfInit with criticalFpsCount := 3 } : Perf).lastWarningTime :=
  perf_warning_discipline.1 Quality.medium 5000 { perfInit with criticalFpsCount := 3 }
    { type := .fps_critical, severity := .critical,
      suggestedQuality := some (suggestedCritical Quality.medium), timestamp := 5000 }
    (by norm_num [checkPerformanceWarnings, fpsWarnings, memWarnings, cpuWarnings, perfInit])

/-! ### C6 — oscilloscope pan/zoom invariant -/

/-- Helper: stepping the zoom up keeps it inside the quantized level set, and
can only land at a level ≤ 1 if the previous level was already ≤ 1. -/
lemma nextZoom_table : ∀ z ∈ zoomLevels, nextZoom z ∈ zoomLevels ∧ (nextZoom z ≤ 1 → z ≤ 1) := by
  intro z hz
  fin_cases hz <;>
    norm_num [nextZoom, zoomLevels, List.findIdx?_cons, List.findIdx?_nil,
      List.getD_cons_zero, List.getD_cons_succ, List.mem_cons]

/-- Helper: stepping the zoom down keeps it inside the quantized level set,
and when no step happened the level is unchanged. -/
lemma prevZoom_table :
    ∀ z ∈ zoomLevels, (prevZoomInfo z).1 ∈ zoomLevels ∧
      ((prevZoomInfo z).2 = false → (prevZoomInfo z).1 = z) := by
  intro z hz
  fin_cases hz <;>
    norm_num [prevZoomInfo, zoomLevels, List.findIdx?_cons, List.findIdx?_nil,
      List.getD_cons_zero, List.getD_cons_succ, List.mem_cons]

/-- Helper: the oscilloscope invariant that does survive the document-level
drag handler, by induction over reachability — the zoom level stays in the
quantized set and the pan offset stays in `[0, 100]`. -/
lemma osc_invariant (s : OscState) (h : OscReachable s) :
    s.zoomLevel ∈ zoomLevels ∧ 0 ≤ s.panOffset ∧ s.panOffset ≤ 100 := by
  induction h with
  | init =>
    refine ⟨?_, le_refl 0, by norm_num [oscInit]⟩
    norm_num [oscInit, zoomLevels, List.mem_cons]
  | @step e t hs ih =>
    obtain ⟨hmem, h0, h100⟩ := ih
    cases e with
    | zoomIn => exact ⟨(nextZoom_table _ hmem).1, h0, h100⟩
    | zoomOut =>
      have ht := prevZoom_table _ hmem
      simp only [oscStep, zoomOutStep]
      split_ifs with hcond
      · exact ⟨ht.1, le_refl 0, by norm_num⟩
      · exact ⟨ht.1, h0, h100⟩
    | ampIn => exact ⟨hmem, h0, h100⟩
    | ampOut => exact ⟨hmem, h0, h100⟩
    | reset =>
      simp only [oscStep, resetZoomStep]
      refine ⟨?_, le_refl 0, by norm_num⟩
      norm_num [zoomLevels, List.mem_cons]
    | mouseDown x =>
      simp only [oscStep, mouseDownStep]
      split_ifs with hc
      · exact ⟨hmem, h0, h100⟩
      · exact ⟨hmem, h0, h100⟩
    | mouseMove x =>
      simp only [oscStep, mouseMoveStep]
      split_ifs with hc
      · exact ⟨hmem, le_max_left 0 _, max_le (by norm_num) (min_le_left _ _)⟩
      · exact ⟨hmem, h0, h100⟩
    | mouseUp => exact ⟨hmem, h0, h100⟩
    | globalMouseMove x =>
      simp only [oscStep, globalMouseMoveStep]
      split_ifs with hc
      · exact ⟨hmem, le_max_left 0 _, max_le (by norm_num) (min_le_left _ _)⟩
      · exact ⟨hmem, h0, h100⟩
    | globalMouseUp =>
      simp only [oscStep, globalMouseUpStep]
      split_ifs with hc
      · exact ⟨hmem, h0, h100⟩
      · exact ⟨hmem, h0, h100⟩

/-- The state reached by: zoom in (1 → 2), mouse-down at x = 100 (drag
starts, zoom > 1), wheel zoom-out (2 → 1, pan reset to 0, drag still
active), then a document-level mouse move to x = 0: the global handler pans
with no zoom guard (`panDelta = -100 * 0.5 * 1 / 2 = -25`), leaving zoom 1
with pan 25. -/
def c6state : OscState :=
  oscStep (.globalMouseMove 0)
    (oscStep .zoomOut (oscStep (.mouseDown 100) (oscStep .zoomIn oscInit)))

/-- C6 counterexample: `c6state` is reachable, its zoom level is ≤ 1 and its
pan offset is 25 ≠ 0 — the document-level drag handler (lines 713-740) pans
without the `zoomLevel > 1` guard, so "zoom ≤ 1 → pan = 0" is not an
invariant of the program. -/
theorem osc_global_drag_cex :
    OscReachable c6state ∧ c6state.zoomLevel ≤ 1 ∧ c6state.panOffset = 25 := by
  have h1 : oscStep .zoomIn oscInit =
      { zoomLevel := 2, panOffset := 0, amplitudeZoom := 8,
        isDragging := false, lastMouseX := 0 } := by
    norm_num [oscStep, zoomInStep, nextZoom, oscInit, zoomLevels,
      List.findIdx?_cons, List.findIdx?_nil, List.getD_cons_zero, List.getD_cons_succ]
  have h2 : oscStep (.mouseDown 100) (oscStep .zoomIn oscInit) =
      { zoomLevel := 2, panOffset := 0, amplitudeZoom := 8,
        isDragging := true, lastMouseX := 100 } := by
    rw [h1]
    norm_num [oscStep, mouseDownStep]
  have h3 : oscStep .zoomOut (oscStep (.mouseDown 100) (oscStep .zoomIn oscInit)) =
      { zoomLevel := 1, panOffset := 0, amplitudeZoom := 8,
        isDragging := true, lastMouseX := 100 } := by
    rw [h2]
    norm_num [oscStep, zoomOutStep, prevZoomInfo, zoomLevels,
      List.findIdx?_cons, List.findIdx?_nil, List.getD_cons_zero, List.getD_cons_succ]
  have h4 : c6state =
      { zoomLevel := 1, panOffset := 25, amplitudeZoom := 8,
        isDragging := true, lastMouseX := 0 } := by
    rw [c6state, h3]
    norm_num [oscStep, globalMouseMoveStep, min_def, max_def]
  refine ⟨OscReachable.step _ (OscReachable.step _
    (OscReachable.step _ (OscReachable.step _ OscReachable.init))), ?_, ?_⟩
  · rw [h4]
  · rw [h4]

/-- C6 (amended): in every reachable oscilloscope state — including the
document-level drag handler of lines 713-740 — the pan offset is clamped to
`[0, 100]`; and stepping the zoom down to a level ≤ 1 does reset the pan to 0
at that moment.  The stronger claim "zoom ≤ 1 implies pan = 0 in every
reachable state" fails, because the document-level handler pans without the
`zoomLevel > 1` guard while a drag begun at higher zoom is still active (see
the counterexample). -/
theorem osc_pan_clamped :
    (∀ s : OscState, OscReachable s → 0 ≤ s.panOffset ∧ s.panOffset ≤ 100) ∧
    (∀ s : OscState, (prevZoomInfo s.zoomLevel).2 = true →
      (prevZoomInfo s.zoomLevel).1 ≤ 1 → (zoomOutStep s).panOffset = 0) := by
  constructor
  · exact fun s h => (osc_invariant s h).2
  · intro s h1 h2
    simp only [zoomOutStep]
    rw [if_pos ⟨h1, h2⟩]

/-- The mid-trace state of the counterexample, just before its zoom-out step:
zoom 2 with an active drag. -/
def c6midState : OscState :=
  { zoomLevel := 2, panOffset := 0, amplitudeZoom := 8,
    isDragging := true, lastMouseX := 100 }

/-- Witness for C6: the pan bound at the counterexample state itself (whose
reachability is concrete), and the zoom-out pan reset at the state just
before its zoom-out step. -/
theorem osc_pan_clamped_witness :
    (0 ≤ c6state.panOffset ∧ c6state.panOffset ≤ 100) ∧
      (zoomOutStep c6midState).panOffset = 0 :=
  ⟨osc_pan_clamped.1 c6state
      (OscReachable.step _ (OscReachable.step _
        (OscReachable.step _ (OscReachable.step _ OscReachable.init)))),
   osc_pan_clamped.2 c6midState
      (by norm_num [c6midState, prevZoomInfo, zoomLevels,
        List.findIdx?_cons, List.findIdx?_nil, List.getD_cons_zero, List.getD_cons_succ])
      (by norm_num [c6midState, prevZoomInfo, zoomLevels,
        List.findIdx?_cons, List.findIdx?_nil, List.getD_cons_zero, List.getD_cons_succ])⟩

/-! ### C8 — spectrum-mapper column windows -/

/-- Helper: `logMax - logMin` is non-negative (20 ≤ 22000, base 10 > 1). -/
lemma logRange_nonneg : 0 ≤ logRange := by
  unfold logRange logMax logMin
  have h := Real.logb_le_logb_of_le (b := 10) (by norm_num)
    (by norm_num : (0:ℝ) < 20) (by norm_num : (20:ℝ) ≤ 22000)
  linarith

/-- Helper: the per-column sampled frequency grows with the column index. -/
lemma colFreq_mono {i j : ℕ} (hij : i ≤ j) : colFreq i ≤ colFreq j := by
  unfold colFreq
  apply Real.rpow_le_rpow_of_exponent_le (by norm_num : (1:ℝ) ≤ 10)
  have hc : (i:ℝ) ≤ (j:ℝ) := Nat.cast_le.mpr hij
  have hr := logRange_nonneg
  have hm : logRange * i ≤ logRange * j := mul_le_mul_of_nonneg_left hc hr
  have hd : logRange * i / 139 ≤ logRange * j / 139 :=
    div_le_div_of_nonneg_right hm (by norm_num)
  linarith

/-- Helper: the column-to-bin map is monotone in the column index. -/
lemma logIndexMap_mono (len : ℕ) : Monotone (logIndexMap len) := by
  intro i j hij
  unfold logIndexMap
  apply Int.toNat_le_toNat
  apply min_le_min (le_refl _)
  apply max_le_max (le_refl _)
  rw [round_eq, round_eq]
  apply Int.floor_le_floor
  have h1 : colFreq i / ((44100:ℝ)/2) ≤ colFreq j / ((44100:ℝ)/2) :=
    div_le_div_of_nonneg_right (colFreq_mono hij) (by norm_num)
  have h2 : colFreq i / ((44100:ℝ)/2) * (availableBins len : ℝ) ≤
      colFreq j / ((44100:ℝ)/2) * (availableBins len : ℝ) :=
    mul_le_mul_of_nonneg_right h1 (Nat.cast_nonneg _)
  linarith

/-- Helper: every mapped index is clamped below the bin count. -/
lemma logIndexMap_le_sub_one (len i : ℕ) (h : 1 ≤ len) : logIndexMap len i ≤ len - 1 := by
  unfold logIndexMap availableBins
  rw [Nat.max_eq_right h]
  have hmin : min ((len:ℤ) - 1)
      (max 0 (round (colFreq i / ((44100:ℝ)/2) * ((len:ℕ):ℝ)))) ≤ (len:ℤ) - 1 :=
    min_le_left _ _
  rw [Int.toNat_le]
  omega

/-- Helper: consecutive half-open intervals of a monotone map telescope. -/
lemma biUnion_Ico_chain (m : ℕ → ℕ) (hm : Monotone m) :
    ∀ n, (Finset.range n).biUnion (fun i => Finset.Ico (m i) (m (i + 1))) =
      Finset.Ico (m 0) (m n) := by
  intro n
  induction n with
  | zero => simp
  | succ k ih =>
    rw [Finset.range_succ, Finset.biUnion_insert, ih, Finset.union_comm]
    exact Finset.Ico_union_Ico_eq_Ico (hm (Nat.zero_le k)) (hm (Nat.le_succ k))

/-- Helper: the union of all 140 column windows is the contiguous bin range
from the first column's start index to one past the last column's start
index. -/
lemma allWindows_eq (len : ℕ) (h : 1 ≤ len) :
    allWindows len = Finset.Ico (logIndexMap len 0) (logIndexMap len 139 + 1) := by
  unfold allWindows VIZ_COLS
  rw [show (140:ℕ) = 139 + 1 from rfl, Finset.range_succ, Finset.biUnion_insert]
  have hbody : (Finset.range 139).biUnion (colWindow len) =
      (Finset.range 139).biUnion (fun i => Finset.Ico (logIndexMap len i) (logIndexMap len (i + 1))) := by
    apply Finset.biUnion_congr rfl
    intro i hi
    unfold colWindow colEnd VIZ_COLS
    rw [if_pos (by exact Finset.mem_range.mp hi)]
  have hlast : colWindow len 139 = Finset.Ico (logIndexMap len 139) (logIndexMap len 139 + 1) := by
    unfold colWindow colEnd VIZ_COLS
    rw [if_neg (by norm_num)]
    have h1 : logIndexMap len 139 ≤ len - 1 := logIndexMap_le_sub_one len 139 h
    congr 1
    omega
  rw [hbody, biUnion_Ico_chain _ (logIndexMap_mono len), hlast, Finset.union_comm]
  exact Finset.Ico_union_Ico_eq_Ico (logIndexMap_mono len (Nat.zero_le _)) (Nat.le_succ _)

/-- Helper: two distinct column windows never overlap. -/
lemma colWindow_disjoint (len i j : ℕ) (hij : i < j) (hj : j < VIZ_COLS) :
    Disjoint (colWindow len i) (colWindow len j) := by
  have hj2 : j < 140 := hj
  rw [Finset.disjoint_left]
  intro x hxi hxj
  rw [colWindow, Finset.mem_Ico] at hxi hxj
  have hend : colEnd len i ≤ logIndexMap len j := by
    unfold colEnd VIZ_COLS
    rw [if_pos (show i < 140 - 1 by omega)]
    exact logIndexMap_mono len (by omega)
  omega

/-- Helper: the first column samples exactly the minimum frequency 20 Hz. -/
lemma colFreq_zero : colFreq 0 = 20 := by
  unfold colFreq
  have h : logMin + logRange * ((0:ℕ):ℝ) / 139 = logMin := by
    push_cast
    ring
  rw [h]
  unfold logMin
  exact Real.rpow_logb (by norm_num) (by norm_num) (by norm_num)

/-- Helper: the last column samples exactly the maximum frequency 22000 Hz. -/
lemma colFreq_last : colFreq 139 = 22000 := by
  simp only [colFreq, logRange, logMax, logMin]
  have h : Real.logb 10 20 + (Real.logb 10 22000 - Real.logb 10 20) * ((139:ℕ):ℝ) / 139 =
      Real.logb 10 22000 := by
    push_cast
    ring
  rw [h]
  exact Real.rpow_logb (by norm_num) (by norm_num) (by norm_num)

/-- Helper: with 552 bins the first column already maps to bin 1
(`round(20 / 22050 * 552) = round(0.50068...) = 1`), so bin 0 is skipped. -/
lemma logIndexMap_552_0 : logIndexMap 552 0 = 1 := by
  unfold logIndexMap availableBins
  have hmax : max 1 552 = 552 := by norm_num
  have hr : round ((20:ℝ) / ((44100:ℝ)/2) * ((552:ℕ):ℝ)) = 1 := by
    rw [round_eq, Int.floor_eq_iff]
    constructor <;> norm_num
  simp only [colFreq_zero, hmax, hr]
  decide

/-- Helper: with 32 bins the first column maps to bin 0. -/
lemma logIndexMap_32_0 : logIndexMap 32 0 = 0 := by
  unfold logIndexMap availableBins
  have hmax : max 1 32 = 32 := by norm_num
  have hr : round ((20:ℝ) / ((44100:ℝ)/2) * ((32:ℕ):ℝ)) = 0 := by
    rw [round_eq, Int.floor_eq_iff]
    constructor <;> norm_num
  simp only [colFreq_zero, hmax, hr]
  decide

/-- Helper: with 32 bins the last column maps to the top bin 31. -/
lemma logIndexMap_32_139 : logIndexMap 32 139 = 31 := by
  unfold logIndexMap availableBins
  have hmax : max 1 32 = 32 := by norm_num
  have hr : round ((22000:ℝ) / ((44100:ℝ)/2) * ((32:ℕ):ℝ)) = 32 := by
    rw [round_eq, Int.floor_eq_iff]
    constructor <;> norm_num
  simp only [colFreq_last, hmax, hr]
  decide

/-- Helper: with 64 bins the first column maps to bin 0. -/
lemma logIndexMap_64_0 : logIndexMap 64 0 = 0 := by
  unfold logIndexMap availableBins
  have hmax : max 1 64 = 64 := by norm_num
  have hr : round ((20:ℝ) / ((44100:ℝ)/2) * ((64:ℕ):ℝ)) = 0 := by
    rw [round_eq, Int.floor_eq_iff]
    constructor <;> norm_num
  simp only [colFreq_zero, hmax, hr]
  decide

/-- Helper: with 64 bins the last column maps to the top bin 63. -/
lemma logIndexMap_64_139 : logIndexMap 64 139 = 63 := by
  unfold logIndexMap availableBins
  have hmax : max 1 64 = 64 := by norm_num
  have hr : round ((22000:ℝ) / ((44100:ℝ)/2) * ((64:ℕ):ℝ)) = 64 := by
    rw [round_eq, Int.floor_eq_iff]
    constructor <;> norm_num
  simp only [colFreq_last, hmax, hr]
  decide

/-- Helper: with 128 bins the first column maps to bin 0. -/
lemma logIndexMap_128_0 : logIndexMap 128 0 = 0 := by
  unfold logIndexMap availableBins
  have hmax : max 1 128 = 128 := by norm_num
  have hr : round ((20:ℝ) / ((44100:ℝ)/2) * ((128:ℕ):ℝ)) = 0 := by
    rw [round_eq, Int.floor_eq_iff]
    constructor <;> norm_num
  simp only [colFreq_zero, hmax, hr]
  decide

/-- Helper: with 128 bins the last column maps to the top bin 127. -/
lemma logIndexMap_128_139 : logIndexMap 128 139 = 127 := by
  unfold logIndexMap availableBins
  have hmax : max 1 128 = 128 := by norm_num
  have hr : round ((22000:ℝ) / ((44100:ℝ)/2) * ((128:ℕ):ℝ)) = 128 := by
    rw [round_eq, Int.floor_eq_iff]
    constructor <;> norm_num
  simp only [colFreq_last, hmax, hr]
  decide

/-- Helper: with 256 bins the first column maps to bin 0. -/
lemma logIndexMap_256_0 : logIndexMap 256 0 = 0 := by
  unfold logIndexMap availableBins
  have hmax : max 1 256 = 256 := by norm_num
  have hr : round ((20:ℝ) / ((44100:ℝ)/2) * ((256:ℕ):ℝ)) = 0 := by
    rw [round_eq, Int.floor_eq_iff]
    constructor <;> norm_num
  simp only [colFreq_zero, hmax, hr]
  decide

/-- Helper: with 256 bins the last column maps to the top bin 255. -/
lemma logIndexMap_256_139 : logIndexMap 256 139 = 255 := by
  unfold logIndexMap availableBins
  have hmax : max 1 256 = 256 := by norm_num
  have hr : round ((22000:ℝ) / ((44100:ℝ)/2) * ((256:ℕ):ℝ)) = 255 := by
    rw [round_eq, Int.floor_eq_iff]
    constructor <;> norm_num
  simp only [colFreq_last, hmax, hr]
  decide

set_option maxRecDepth 4096 in
/-- C8 counterexample: with a frequency buffer of length 552 (≥ 1), bin 0 is
covered by no column window — the first column already maps to bin 1 because
`round(20 / 22050 * 552) = 1` — so the windows do not cover the full bin
range `[0, binCount)` for every length ≥ 1. -/
theorem spectrum_missing_bin_cex : 0 ∉ allWindows 552 := by
  intro hmem
  rw [allWindows, Finset.mem_biUnion] at hmem
  obtain ⟨i, hi, hx⟩ := hmem
  rw [colWindow, Finset.mem_Ico] at hx
  have h1 : logIndexMap 552 0 ≤ logIndexMap 552 i := logIndexMap_mono 552 (Nat.zero_le i)
  rw [logIndexMap_552_0] at h1
  omega

/-- C8 (amended): for every frequency-buffer length ≥ 1 the column windows are
contiguous and non-overlapping, and together they cover exactly the bin range
from the first column's start index to one past the last column's start index
— a sub-range of `[0, binCount)`.  For the buffer lengths the player actually
produces (32, 64, 128 and 256 bins, from the four quality tiers) this range is
the full `[0, binCount)`, but it is not for every length ≥ 1 (see the
counterexample at length 552). -/
theorem spectrum_windows_partition :
    (∀ len : ℕ, Monotone (logIndexMap len)) ∧
    (∀ (len i j : ℕ), i < j → j < VIZ_COLS → Disjoint (colWindow len i) (colWindow len j)) ∧
    (∀ len : ℕ, 1 ≤ len →
      allWindows len = Finset.Ico (logIndexMap len 0) (logIndexMap len 139 + 1) ∧
      logIndexMap len 139 + 1 ≤ len) ∧
    allWindows 32 = Finset.Ico 0 32 ∧
    allWindows 64 = Finset.Ico 0 64 ∧
    allWindows 128 = Finset.Ico 0 128 ∧
    allWindows 256 = Finset.Ico 0 256 := by
  refine ⟨logIndexMap_mono, colWindow_disjoint, ?_, ?_, ?_, ?_, ?_⟩
  · intro len h
    refine ⟨allWindows_eq len h, ?_⟩
    have := logIndexMap_le_sub_one len 139 h
    omega
  · rw [allWindows_eq 32 (by norm_num), logIndexMap_32_0, logIndexMap_32_139]
  · rw [allWindows_eq 64 (by norm_num), logIndexMap_64_0, logIndexMap_64_139]
  · rw [allWindows_eq 128 (by norm_num), logIndexMap_128_0, logIndexMap_128_139]
  · rw [allWindows_eq 256 (by norm_num), logIndexMap_256_0, logIndexMap_256_139]

/-- Witness for C8 at the medium-tier bin count 64. -/
theorem spectrum_windows_partition_witness :
    allWindows 64 = Finset.Ico (logIndexMap 64 0) (logIndexMap 64 139 + 1) ∧
      logIndexMap 64 139 + 1 ≤ 64 :=
  spectrum_windows_partition.2.2.1 64 (by norm_num)

end AacsPlayer
